import Mathlib

/-!
# Poco `ThreadImpl` (Foundation/src/Thread_POSIX.cpp)

A shallow embedding of the POSIX thread implementation: the build-time
configuration is a `Platform` value (one field per preprocessor symbol or
system constant the source consults), the handle state is `ThreadData`, every
operation is a function from the state and the results of the OS calls it
makes to an `Outcome` (result or exception, state afterwards, calls made).
-/

namespace Poco

/-! ## Machine integers -/

/-- Value of a C++ `int` expression whose exact value is `x`: reduced to
32-bit two's complement. -/
def wrapInt (x : Int) : Int := (x + 2147483648) % 4294967296 - 2147483648

/-- The values a C++ `int` can hold. -/
def isInt (x : Int) : Prop := -2147483648 ≤ x ∧ x ≤ 2147483647

instance (x : Int) : Decidable (isInt x) := by unfold isInt; infer_instance

/-! ## Build configuration -/

/-- The values of `POCO_OS` the source distinguishes. -/
inductive OS where
  | LINUX
  | MAC_OS_X
  | QNX
  | VXWORKS
  | OTHER
deriving DecidableEq, Repr

/-- Everything the source takes from the build and from system headers. -/
structure Platform where
  /-- Value of `POCO_OS` -/
  POCO_OS : OS
  /-- Whether `defined(POCO_OS_FAMILY_UNIX)` -/
  POCO_OS_FAMILY_UNIX : Bool
  /-- Whether `defined(POCO_OS_FAMILY_BSD)` -/
  POCO_OS_FAMILY_BSD : Bool
  /-- Whether `defined(POCO_ANDROID)` -/
  POCO_ANDROID : Bool
  /-- Whether `defined(__VMS) || defined(__digital__)` -/
  VMS : Bool
  /-- Value of `PTHREAD_STACK_MIN`, `none` when the macro is not defined -/
  PTHREAD_STACK_MIN : Option Int
  /-- Value of `POCO_THREAD_PRIORITY_MIN`, `none` when the macro is not defined -/
  POCO_THREAD_PRIORITY_MIN : Option Int
  /-- Value of `POCO_THREAD_PRIORITY_MAX`, `none` when the macro is not defined -/
  POCO_THREAD_PRIORITY_MAX : Option Int
  /-- Value of `PRI_OTHER_MIN` (DECthreads) -/
  PRI_OTHER_MIN : Int
  /-- Value of `PRI_OTHER_MAX` (DECthreads) -/
  PRI_OTHER_MAX : Int
  /-- Value of `SCHED_OTHER` -/
  SCHED_OTHER : Int
  /-- Result of `sched_get_priority_min(policy)` -/
  sched_get_priority_min : Int → Int
  /-- Result of `sched_get_priority_max(policy)` -/
  sched_get_priority_max : Int → Int
  /-- Whether `defined(HAVE_PTHREAD_SETAFFINITY_NP)` -/
  HAVE_PTHREAD_SETAFFINITY_NP : Bool
  /-- Whether `defined(HAVE_THREE_PARAM_SCHED_SETAFFINITY)` -/
  HAVE_THREE_PARAM_SCHED_SETAFFINITY : Bool

/-! ## Priority levels

Modelled from the spec: the enumerators are declared in `Poco/Thread_POSIX.h`,
which is not part of the sources at hand; the spec names the five levels
Lowest, Low, Normal, High, Highest, taken here in ascending order from 0. -/

/-- Modelled from the spec: level Lowest of the priority enumeration. -/
def PRIO_LOWEST_IMPL : Int := 0
/-- Modelled from the spec: level Low of the priority enumeration. -/
def PRIO_LOW_IMPL : Int := 1
/-- Modelled from the spec: level Normal of the priority enumeration. -/
def PRIO_NORMAL_IMPL : Int := 2
/-- Modelled from the spec: level High of the priority enumeration. -/
def PRIO_HIGH_IMPL : Int := 3
/-- Modelled from the spec: level Highest of the priority enumeration. -/
def PRIO_HIGHEST_IMPL : Int := 4

/-- The five valid levels. -/
def levels : List Int :=
  [PRIO_LOWEST_IMPL, PRIO_LOW_IMPL, PRIO_NORMAL_IMPL, PRIO_HIGH_IMPL, PRIO_HIGHEST_IMPL]

/-! ## PriorityMapper -/

/-- Embeds `ThreadImpl::getMinOSPriorityImpl`. -/
def getMinOSPriorityImpl (P : Platform) (policy : Int) : Int :=
  match P.POCO_THREAD_PRIORITY_MIN with
  | some v => v
  | none => if P.VMS then P.PRI_OTHER_MIN else P.sched_get_priority_min policy

/-- Embeds `ThreadImpl::getMaxOSPriorityImpl`. -/
def getMaxOSPriorityImpl (P : Platform) (policy : Int) : Int :=
  match P.POCO_THREAD_PRIORITY_MAX with
  | some v => v
  | none => if P.VMS then P.PRI_OTHER_MAX else P.sched_get_priority_max policy

/-- Embeds `ThreadImpl::mapPrio`; `none` is the `default:` branch
(`poco_bugcheck_msg("invalid thread priority")`). Division is the truncating
division of C++. -/
def mapPrio (P : Platform) (prio policy : Int) : Option Int :=
  let pmin := getMinOSPriorityImpl P policy
  let pmax := getMaxOSPriorityImpl P policy
  if prio = PRIO_LOWEST_IMPL then some pmin
  else if prio = PRIO_LOW_IMPL then
    some (wrapInt (pmin + (wrapInt (pmax - pmin)).tdiv 4))
  else if prio = PRIO_NORMAL_IMPL then
    some (wrapInt (pmin + (wrapInt (pmax - pmin)).tdiv 2))
  else if prio = PRIO_HIGH_IMPL then
    some (wrapInt (pmin + (wrapInt (3 * wrapInt (pmax - pmin))).tdiv 4))
  else if prio = PRIO_HIGHEST_IMPL then some pmax
  else none

/-- Embeds `ThreadImpl::reverseMapPrio`. -/
def reverseMapPrio (P : Platform) (prio policy : Int) : Int :=
  if policy = P.SCHED_OTHER then
    let pmin := getMinOSPriorityImpl P policy
    let pmax := getMaxOSPriorityImpl P policy
    let normal := wrapInt (pmin + (wrapInt (pmax - pmin)).tdiv 2)
    if prio = pmax then PRIO_HIGHEST_IMPL
    else if prio > normal then PRIO_HIGH_IMPL
    else if prio = normal then PRIO_NORMAL_IMPL
    else if prio > pmin then PRIO_LOW_IMPL
    else PRIO_LOWEST_IMPL
  else PRIO_HIGHEST_IMPL

/-- A Linux build: `SCHED_OTHER` is 0 and its priority range is `[0, 0]`;
the real-time policies 1 and 2 range over `[1, 99]`. -/
def linuxPlatform : Platform where
  POCO_OS := OS.LINUX
  POCO_OS_FAMILY_UNIX := true
  POCO_OS_FAMILY_BSD := false
  POCO_ANDROID := false
  VMS := false
  PTHREAD_STACK_MIN := some 16384
  POCO_THREAD_PRIORITY_MIN := none
  POCO_THREAD_PRIORITY_MAX := none
  PRI_OTHER_MIN := 0
  PRI_OTHER_MAX := 0
  SCHED_OTHER := 0
  sched_get_priority_min := fun policy => if policy = 0 then 0 else 1
  sched_get_priority_max := fun policy => if policy = 0 then 0 else 99
  HAVE_PTHREAD_SETAFFINITY_NP := true
  HAVE_THREE_PARAM_SCHED_SETAFFINITY := true

/-- A build whose default policy has the priority range `[lo, hi]`
(`POCO_THREAD_PRIORITY_MIN` and `POCO_THREAD_PRIORITY_MAX` defined). -/
def rangePlatform (lo hi : Int) : Platform :=
  { linuxPlatform with
    POCO_THREAD_PRIORITY_MIN := some lo
    POCO_THREAD_PRIORITY_MAX := some hi }

/-! ## Exceptions, calls, handle state -/

/-- The exceptions the source raises: `SystemException(msg)` and the
`BugcheckException` of `poco_bugcheck_msg(msg)`. -/
inductive Exn where
  | SystemException (msg : String)
  | BugcheckException (msg : String)
deriving DecidableEq, Repr

/-- How a call ends: it returns a value or raises. -/
inductive Res (α : Type) where
  | ok (value : α)
  | threw (exc : Exn)
deriving DecidableEq, Repr

/-- The calls into the OS and into the completion event that the operations
make, with the arguments that matter. -/
inductive Call where
  | pthread_attr_init
  | pthread_attr_setstacksize (stackSize : Int)
  | pthread_attr_destroy
  | pthread_create (pTarget : Option Nat)
  | pthread_setschedparam (thread policy sched_priority : Int)
  | pthread_join (thread : Int)
  | done_wait
  | done_tryWait (milliseconds : Int)
  | pthread_setaffinity_np (thread cpu : Int)
  | thread_policy_set (thread cpu : Int)
  | yieldImpl
deriving DecidableEq, Repr

/-- The fields of `ThreadImpl::ThreadData` the source reads and writes.
`pRunnableTarget` is `none` for the null pointer; `done` is the signalled
state of the completion event. -/
structure ThreadData where
  pRunnableTarget : Option Nat
  thread : Int
  tid : Int
  prio : Int
  osPrio : Int
  policy : Int
  stackSize : Int
  started : Bool
  joined : Bool
  done : Bool
deriving DecidableEq, Repr

/-- What a call leaves behind: its result, the handle state, and the calls
it made, in order. -/
structure Outcome (α : Type) where
  result : Res α
  data : ThreadData
  calls : List Call
deriving DecidableEq, Repr

/-- Modelled from the spec: `isRunningImpl` is defined in
`Poco/Thread_POSIX.h` (absent); the spec has `runnableTarget` act as the
"is running" guard: the thread is running while the target is non-empty. -/
def isRunningImpl (d : ThreadData) : Bool := d.pRunnableTarget.isSome

/-! ## Priority setters -/

/-- Embeds `ThreadImpl::setPriorityImpl`; `rc` is the return value of
`pthread_setschedparam`, should it be called. -/
def setPriorityImpl (P : Platform) (rc : Int) (d : ThreadData) (prio : Int) : Outcome Unit :=
  if prio ≠ d.prio then
    let d1 := { d with prio := prio, policy := P.SCHED_OTHER }
    if isRunningImpl d1 then
      match mapPrio P d1.prio P.SCHED_OTHER with
      | none => ⟨.threw (.BugcheckException "invalid thread priority"), d1, []⟩
      | some sched_priority =>
        if rc ≠ 0 then
          ⟨.threw (.SystemException "cannot set thread priority"), d1,
            [.pthread_setschedparam d1.thread P.SCHED_OTHER sched_priority]⟩
        else
          ⟨.ok (), d1, [.pthread_setschedparam d1.thread P.SCHED_OTHER sched_priority]⟩
    else ⟨.ok (), d1, []⟩
  else ⟨.ok (), d, []⟩

/-- Embeds `ThreadImpl::setOSPriorityImpl`; `rc` is the return value of
`pthread_setschedparam`, should it be called. -/
def setOSPriorityImpl (P : Platform) (rc : Int) (d : ThreadData) (prio policy : Int) :
    Outcome Unit :=
  if prio ≠ d.osPrio ∨ policy ≠ d.policy then
    let stored := { d with prio := reverseMapPrio P prio policy, osPrio := prio, policy := policy }
    if d.pRunnableTarget.isSome then
      if rc ≠ 0 then
        ⟨.threw (.SystemException "cannot set thread priority"), d,
          [.pthread_setschedparam d.thread policy prio]⟩
      else ⟨.ok (), stored, [.pthread_setschedparam d.thread policy prio]⟩
    else ⟨.ok (), stored, []⟩
  else ⟨.ok (), d, []⟩

/-! ## Stack size -/

/-- Embeds `ThreadImpl::setStackSizeImpl`; `size` is an `int`, and so is
every intermediate value. -/
def setStackSizeImpl (P : Platform) (d : ThreadData) (size : Int) : ThreadData :=
  match P.PTHREAD_STACK_MIN with
  | none => { d with stackSize := 0 }
  | some stackMin =>
    if size ≠ 0 then
      let size1 :=
        if P.POCO_OS_FAMILY_BSD then
          wrapInt ((wrapInt (wrapInt (size + 4096) - 1)).tdiv 4096 * 4096)
        else size
      let size2 :=
        if !P.POCO_ANDROID then (if size1 < stackMin then stackMin else size1) else size1
      { d with stackSize := size2 }
    else { d with stackSize := size }

/-! ## Affinity -/

/-- Embeds `ThreadImpl::setAffinityImpl`. The two conditional blocks exclude
each other (the first needs `POCO_OS != POCO_OS_MAC_OS_X`), so at most one
affinity call is made; `rc` is its return value. -/
def setAffinityImpl (P : Platform) (rc : Int) (d : ThreadData) (cpu : Int) : Outcome Unit :=
  if P.POCO_OS_FAMILY_UNIX && P.POCO_OS != OS.MAC_OS_X && P.HAVE_PTHREAD_SETAFFINITY_NP then
    if rc ≠ 0 then
      ⟨.threw (.SystemException "Failed to set affinity"), d,
        [.pthread_setaffinity_np d.thread cpu]⟩
    else ⟨.ok (), d, [.pthread_setaffinity_np d.thread cpu, .yieldImpl]⟩
  else if P.POCO_OS = OS.MAC_OS_X then
    if rc ≠ 0 then
      ⟨.threw (.SystemException "Failed to set affinity"), d, [.thread_policy_set d.thread cpu]⟩
    else ⟨.ok (), d, [.thread_policy_set d.thread cpu, .yieldImpl]⟩
  else ⟨.ok (), d, [.yieldImpl]⟩

/-! ## Start, entry trampoline, join -/

/-- The results of the OS calls `startImpl` may make. -/
structure StartOs where
  /-- Return value of `pthread_attr_setstacksize` -/
  pthread_attr_setstacksize : Int
  /-- Return value of `pthread_create` -/
  pthread_create : Int
  /-- The identifier `pthread_create` leaves in `_pData->thread` (stored as it is
  given, also when the call fails and the content is unspecified) -/
  thread : Int
  /-- Value of `pthread_mach_thread_np(_pData->thread)` -/
  pthread_mach_thread_np : Int
  /-- Return value of `pthread_setschedparam` -/
  pthread_setschedparam : Int
deriving DecidableEq, Repr

/-- Embeds `ThreadImpl::startImpl`; `os` holds the results of the OS calls it
may make. The new thread runs on its own: what it does to the handle is
`runnableEntry`, a step of its own. -/
def startImpl (P : Platform) (os : StartOs) (d : ThreadData) (pTarget : Option Nat) :
    Outcome Unit :=
  if d.pRunnableTarget.isSome then
    ⟨.threw (.SystemException "thread already running"), d, []⟩
  else
    let c1 := [Call.pthread_attr_init]
    if d.stackSize ≠ 0 ∧ os.pthread_attr_setstacksize ≠ 0 then
      ⟨.threw (.SystemException "cannot set thread stack size"), d,
        c1 ++ [.pthread_attr_setstacksize d.stackSize, .pthread_attr_destroy]⟩
    else
      let c2 := if d.stackSize ≠ 0 then c1 ++ [.pthread_attr_setstacksize d.stackSize] else c1
      let d1 := { d with pRunnableTarget := pTarget, thread := os.thread }
      if os.pthread_create ≠ 0 then
        ⟨.threw (.SystemException "cannot start thread"), { d1 with pRunnableTarget := none },
          c2 ++ [.pthread_create pTarget, .pthread_attr_destroy]⟩
      else
        let tid :=
          match P.POCO_OS with
          | OS.LINUX => 0
          | OS.MAC_OS_X => os.pthread_mach_thread_np
          | _ => d1.thread
        let d2 := { d1 with tid := tid, started := true }
        let c3 := c2 ++ [.pthread_create pTarget, .pthread_attr_destroy]
        if d2.policy = P.SCHED_OTHER then
          if d2.prio ≠ PRIO_NORMAL_IMPL then
            match mapPrio P d2.prio P.SCHED_OTHER with
            | none => ⟨.threw (.BugcheckException "invalid thread priority"), d2, c3⟩
            | some sched_priority =>
              let c4 := c3 ++ [.pthread_setschedparam d2.thread P.SCHED_OTHER sched_priority]
              if os.pthread_setschedparam ≠ 0 then
                ⟨.threw (.SystemException "cannot set thread priority"), d2, c4⟩
              else ⟨.ok (), d2, c4⟩
          else ⟨.ok (), d2, c3⟩
        else
          let c4 := c3 ++ [.pthread_setschedparam d2.thread d2.policy d2.osPrio]
          if os.pthread_setschedparam ≠ 0 then
            ⟨.threw (.SystemException "cannot set thread priority"), d2, c4⟩
          else ⟨.ok (), d2, c4⟩

/-- Embeds what `ThreadImpl::runnableEntry` does to the handle, from the
entry of the new thread to its end: on Linux it records `gettid`, it runs
the target (whose exceptions are caught and handed to the error handler),
then clears `pRunnableTarget` and sets the completion event. -/
def runnableEntry (P : Platform) (gettid : Int) (d : ThreadData) : ThreadData :=
  let d1 := if P.POCO_OS = OS.LINUX then { d with tid := gettid } else d
  { d1 with pRunnableTarget := none, done := true }

/-- Embeds `ThreadImpl::joinImpl()`, taken at the point where `done.wait()`
has returned; `rc` is the return value of `pthread_join`. -/
def joinImpl (rc : Int) (d : ThreadData) : Outcome Unit :=
  if !d.started then ⟨.ok (), d, []⟩
  else if rc ≠ 0 then
    ⟨.threw (.SystemException "cannot join thread"), d, [.done_wait, .pthread_join d.thread]⟩
  else ⟨.ok (), { d with joined := true }, [.done_wait, .pthread_join d.thread]⟩

/-- Embeds `ThreadImpl::joinImpl(long milliseconds)`; `tryWait` is what
`done.tryWait(milliseconds)` returns (true when the completion event is
signalled within the timeout), evaluated only when `started` holds, and
`rc` is the return value of `pthread_join`. -/
def joinImpl_milliseconds (tryWait : Bool) (rc : Int) (d : ThreadData) (milliseconds : Int) :
    Outcome Bool :=
  if d.started && tryWait then
    if rc ≠ 0 then
      ⟨.threw (.SystemException "cannot join thread"), d,
        [.done_tryWait milliseconds, .pthread_join d.thread]⟩
    else
      ⟨.ok true, { d with joined := true }, [.done_tryWait milliseconds, .pthread_join d.thread]⟩
  else if d.started then ⟨.ok false, d, [.done_tryWait milliseconds]⟩
  else ⟨.ok true, d, []⟩

/-! ## Lifecycle as a transition system -/

/-- One operation on a handle, with the results of the OS calls it makes. -/
inductive Op where
  | start (os : StartOs) (pTarget : Option Nat)
  | join (rc : Int)
  | joinTimed (tryWait : Bool) (rc : Int) (milliseconds : Int)
  | setPriority (rc : Int) (prio : Int)
  | setOSPriority (rc : Int) (prio policy : Int)
  | setStackSize (size : Int)
  | completion (gettid : Int)
deriving DecidableEq, Repr

/-- The handle state after one operation, whether it returned or raised.
Every operation is taken as enabled in every state, which can only add
reachable states. -/
def step (P : Platform) (d : ThreadData) : Op → ThreadData
  | .start os pTarget => (startImpl P os d pTarget).data
  | .join rc => (joinImpl rc d).data
  | .joinTimed tryWait rc ms => (joinImpl_milliseconds tryWait rc d ms).data
  | .setPriority rc prio => (setPriorityImpl P rc d prio).data
  | .setOSPriority rc prio policy => (setOSPriorityImpl P rc d prio policy).data
  | .setStackSize size => setStackSizeImpl P d size
  | .completion gettid => runnableEntry P gettid d

/-- The handle state after a sequence of operations. -/
def run (P : Platform) (d : ThreadData) (ops : List Op) : ThreadData :=
  ops.foldl (step P) d

/-- A freshly constructed handle, as far as the lifecycle goes: not started,
not joined, no target. -/
def isFresh (d : ThreadData) : Prop :=
  d.started = false ∧ d.joined = false ∧ d.pRunnableTarget = none

instance (d : ThreadData) : Decidable (isFresh d) := by unfold isFresh; infer_instance

/-- Modelled from the spec: the state `ThreadData`'s constructor builds (it
is declared in `Poco/Thread_POSIX.h`, absent): normal priority under the
default policy, stack size 0 for the OS default, not started, not joined. -/
def newThreadData (P : Platform) : ThreadData where
  pRunnableTarget := none
  thread := 0
  tid := 0
  prio := PRIO_NORMAL_IMPL
  osPrio := 0
  policy := P.SCHED_OTHER
  stackSize := 0
  started := false
  joined := false
  done := false

/-! ## Sleep -/

/-- How one native timed wait (`nanosleep`, `select`) ends. `completed`: it
returns 0 after the interval it was given. `EINTR waited`: it returns -1
with `errno == EINTR`, and `start.elapsed()` then measures `waited`
microseconds. `failed`: it returns -1 with another `errno`. -/
inductive WaitResult where
  | completed
  | EINTR (waited : Int)
  | failed
deriving DecidableEq, Repr

/-- The elapsed time an outcome carries (0 when it carries none). -/
def WaitResult.waited : WaitResult → Int
  | .EINTR w => w
  | _ => 0

/-- The native wait a build's loop runs on. -/
inductive NativeWait where
  | nanosleep
  | select
deriving DecidableEq, Repr

/-- The text of the exception the loop raises. -/
def NativeWait.msg : NativeWait → String
  | .nanosleep => "Thread::sleep(): nanosleep() failed"
  | .select => "Thread::sleep(): select() failed"

/-- The consistency the spec asks of the priority fields under the default
policy: the policy is `SCHED_OTHER` and `prio` is the level of `osPrio`. -/
def inSync (P : Platform) (d : ThreadData) : Prop :=
  d.policy = P.SCHED_OTHER ∧ d.prio = reverseMapPrio P d.osPrio P.SCHED_OTHER

instance (P : Platform) (d : ThreadData) : Decidable (inSync P d) := by
  unfold inSync; infer_instance

/-- Whether the build compiles an affinity call into `setAffinityImpl`:
`pthread_setaffinity_np` on Unix other than Mac OS X, or the Mac OS X thread
policy call. -/
def hasAffinityCall (P : Platform) : Bool :=
  (P.POCO_OS_FAMILY_UNIX && P.POCO_OS != OS.MAC_OS_X && P.HAVE_PTHREAD_SETAFFINITY_NP)
    || P.POCO_OS == OS.MAC_OS_X

/-! ## Concrete inputs -/

/-- OS results with which every call of `startImpl` succeeds; the new thread
gets the identifier 1001. -/
def allSucceed : StartOs where
  pthread_attr_setstacksize := 0
  pthread_create := 0
  thread := 1001
  pthread_mach_thread_np := 0
  pthread_setschedparam := 0

/-- A handle whose unit is running: started on Linux with target 7. -/
def runningData : ThreadData :=
  (startImpl linuxPlatform allSucceed (newThreadData linuxPlatform) (some 7)).data

/-- A handle that was started, whose unit has completed, and that was
joined: the state after `start`, the end of the entry trampoline, `join`. -/
def joinedData : ThreadData :=
  run linuxPlatform (newThreadData linuxPlatform)
    [.start allSucceed (some 7), .completion 4242, .join 0]

/-- A configured handle on a build with the default range `[0, 8]`: level
High with native priority 5, as `setOSPriorityImpl(5, SCHED_OTHER)` leaves
it. -/
def syncedHighData : ThreadData :=
  (setOSPriorityImpl (rangePlatform 0 8) 0 (newThreadData (rangePlatform 0 8)) 5
    (rangePlatform 0 8).SCHED_OTHER).data

/-- A configured handle on a build with the default range `[0, 8]`: normal
priority, native priority 4, the native value of Normal. -/
def syncedData : ThreadData :=
  { newThreadData (rangePlatform 0 8) with osPrio := 4 }

/-- A Unix build without `HAVE_PTHREAD_SETAFFINITY_NP`. -/
def noAffinityPlatform : Platform :=
  { linuxPlatform with HAVE_PTHREAD_SETAFFINITY_NP := false }

/-- An Android build: `PTHREAD_STACK_MIN` is 8192 and `POCO_ANDROID` is
defined. -/
def androidPlatform : Platform :=
  { linuxPlatform with POCO_ANDROID := true, PTHREAD_STACK_MIN := some 8192 }

/-- A BSD-family build (Mac OS X): `PTHREAD_STACK_MIN` is 8192. -/
def macPlatform : Platform :=
  { linuxPlatform with
    POCO_OS := OS.MAC_OS_X
    POCO_OS_FAMILY_BSD := true
    PTHREAD_STACK_MIN := some 8192
    HAVE_PTHREAD_SETAFFINITY_NP := false }

/-! ## Theorems: PriorityMapper -/

theorem tdiv_four_of_nonneg (x : Int) (h : 0 ≤ x) : x.tdiv 4 = x / 4 :=
  Int.tdiv_eq_ediv h (by decide)

theorem tdiv_two_of_nonneg (x : Int) (h : 0 ≤ x) : x.tdiv 2 = x / 2 :=
  Int.tdiv_eq_ediv h (by decide)

theorem wrapInt_of_isInt (x : Int) (h : isInt x) : wrapInt x = x := by
  unfold isInt at h
  unfold wrapInt
  omega

/-- Closed forms of `mapPrio` at the five levels when the native range is a
range of `int` values with `pmin ≤ pmax` and `3 * (pmax - pmin)` does not
overflow. -/
theorem mapPrio_values (P : Platform) (policy : Int)
    (hmin : isInt (getMinOSPriorityImpl P policy))
    (hmax : isInt (getMaxOSPriorityImpl P policy))
    (hle : getMinOSPriorityImpl P policy ≤ getMaxOSPriorityImpl P policy)
    (hov : 3 * (getMaxOSPriorityImpl P policy - getMinOSPriorityImpl P policy) ≤ 2147483647) :
    mapPrio P PRIO_LOWEST_IMPL policy = some (getMinOSPriorityImpl P policy) ∧
    mapPrio P PRIO_LOW_IMPL policy = some (getMinOSPriorityImpl P policy +
      (getMaxOSPriorityImpl P policy - getMinOSPriorityImpl P policy) / 4) ∧
    mapPrio P PRIO_NORMAL_IMPL policy = some (getMinOSPriorityImpl P policy +
      (getMaxOSPriorityImpl P policy - getMinOSPriorityImpl P policy) / 2) ∧
    mapPrio P PRIO_HIGH_IMPL policy = some (getMinOSPriorityImpl P policy +
      3 * (getMaxOSPriorityImpl P policy - getMinOSPriorityImpl P policy) / 4) ∧
    mapPrio P PRIO_HIGHEST_IMPL policy = some (getMaxOSPriorityImpl P policy) := by
  simp only [mapPrio]
  generalize getMinOSPriorityImpl P policy = pmin at *
  generalize getMaxOSPriorityImpl P policy = pmax at *
  unfold isInt at hmin hmax
  have hd : wrapInt (pmax - pmin) = pmax - pmin :=
    wrapInt_of_isInt _ (by unfold isInt; omega)
  have h3 : wrapInt (3 * (pmax - pmin)) = 3 * (pmax - pmin) :=
    wrapInt_of_isInt _ (by unfold isInt; omega)
  refine ⟨?_, ?_, ?_, ?_, ?_⟩
  · simp
  · simp [PRIO_LOWEST_IMPL, PRIO_LOW_IMPL, hd]
    rw [tdiv_four_of_nonneg _ (by omega)]
    exact wrapInt_of_isInt _ (by unfold isInt; omega)
  · simp [PRIO_LOWEST_IMPL, PRIO_LOW_IMPL, PRIO_NORMAL_IMPL, hd]
    rw [tdiv_two_of_nonneg _ (by omega)]
    exact wrapInt_of_isInt _ (by unfold isInt; omega)
  · simp [PRIO_LOWEST_IMPL, PRIO_LOW_IMPL, PRIO_NORMAL_IMPL, PRIO_HIGH_IMPL, hd, h3]
    rw [tdiv_four_of_nonneg _ (by omega)]
    exact wrapInt_of_isInt _ (by unfold isInt; omega)
  · simp [PRIO_LOWEST_IMPL, PRIO_LOW_IMPL, PRIO_NORMAL_IMPL, PRIO_HIGH_IMPL,
      PRIO_HIGHEST_IMPL]

/-- Closed form of `reverseMapPrio` under the default policy, under the
conditions of `mapPrio_values`. -/
theorem reverseMapPrio_default (P : Platform) (v : Int)
    (hmin : isInt (getMinOSPriorityImpl P P.SCHED_OTHER))
    (hmax : isInt (getMaxOSPriorityImpl P P.SCHED_OTHER))
    (hle : getMinOSPriorityImpl P P.SCHED_OTHER ≤ getMaxOSPriorityImpl P P.SCHED_OTHER)
    (hov : getMaxOSPriorityImpl P P.SCHED_OTHER - getMinOSPriorityImpl P P.SCHED_OTHER
      ≤ 2147483647) :
    reverseMapPrio P v P.SCHED_OTHER =
      if v = getMaxOSPriorityImpl P P.SCHED_OTHER then PRIO_HIGHEST_IMPL
      else if v > getMinOSPriorityImpl P P.SCHED_OTHER +
          (getMaxOSPriorityImpl P P.SCHED_OTHER - getMinOSPriorityImpl P P.SCHED_OTHER) / 2 then
        PRIO_HIGH_IMPL
      else if v = getMinOSPriorityImpl P P.SCHED_OTHER +
          (getMaxOSPriorityImpl P P.SCHED_OTHER - getMinOSPriorityImpl P P.SCHED_OTHER) / 2 then
        PRIO_NORMAL_IMPL
      else if v > getMinOSPriorityImpl P P.SCHED_OTHER then PRIO_LOW_IMPL
      else PRIO_LOWEST_IMPL := by
  simp only [reverseMapPrio, if_true]
  generalize getMinOSPriorityImpl P P.SCHED_OTHER = pmin at *
  generalize getMaxOSPriorityImpl P P.SCHED_OTHER = pmax at *
  unfold isInt at hmin hmax
  have hd : wrapInt (pmax - pmin) = pmax - pmin :=
    wrapInt_of_isInt _ (by unfold isInt; omega)
  rw [hd, tdiv_two_of_nonneg _ (by omega),
    wrapInt_of_isInt (pmin + (pmax - pmin) / 2) (by unfold isInt; omega)]

/-- C10: for a native range of `int` values with `pmin ≤ pmax` and
`3 * (pmax - pmin)` not overflowing, `mapPrio` returns at each of the five
levels a value within `[pmin, pmax]`, it is monotone non-decreasing in the
level, and its values are the chain
`pmin ≤ pmin + Δ/4 ≤ pmin + Δ/2 ≤ pmin + 3Δ/4 ≤ pmax`. -/
theorem mapPrio_in_range_and_monotone (P : Platform) (policy : Int)
    (hmin : isInt (getMinOSPriorityImpl P policy))
    (hmax : isInt (getMaxOSPriorityImpl P policy))
    (hle : getMinOSPriorityImpl P policy ≤ getMaxOSPriorityImpl P policy)
    (hov : 3 * (getMaxOSPriorityImpl P policy - getMinOSPriorityImpl P policy) ≤ 2147483647) :
    (∀ L ∈ levels, ∃ v, mapPrio P L policy = some v ∧
      getMinOSPriorityImpl P policy ≤ v ∧ v ≤ getMaxOSPriorityImpl P policy) ∧
    (∀ L1 ∈ levels, ∀ L2 ∈ levels, L1 ≤ L2 →
      ∃ v1 v2, mapPrio P L1 policy = some v1 ∧ mapPrio P L2 policy = some v2 ∧ v1 ≤ v2) ∧
    (∃ lowest low normal high highest,
      mapPrio P PRIO_LOWEST_IMPL policy = some lowest ∧
      mapPrio P PRIO_LOW_IMPL policy = some low ∧
      mapPrio P PRIO_NORMAL_IMPL policy = some normal ∧
      mapPrio P PRIO_HIGH_IMPL policy = some high ∧
      mapPrio P PRIO_HIGHEST_IMPL policy = some highest ∧
      getMinOSPriorityImpl P policy ≤ lowest ∧ lowest ≤ low ∧ low ≤ normal ∧
      normal ≤ high ∧ high ≤ highest ∧ highest ≤ getMaxOSPriorityImpl P policy) := by
  obtain ⟨h0, h1, h2, h3, h4⟩ := mapPrio_values P policy hmin hmax hle hov
  unfold isInt at hmin hmax
  refine ⟨?_, ?_, ?_⟩
  · intro L hL
    simp only [levels, List.mem_cons, List.mem_singleton, List.mem_nil_iff, or_false] at hL
    rcases hL with rfl | rfl | rfl | rfl | rfl
    · exact ⟨_, h0, by omega, by omega⟩
    · exact ⟨_, h1, by omega, by omega⟩
    · exact ⟨_, h2, by omega, by omega⟩
    · exact ⟨_, h3, by omega, by omega⟩
    · exact ⟨_, h4, by omega, by omega⟩
  · intro L1 hL1 L2 hL2 h12
    simp only [levels, List.mem_cons, List.mem_singleton, List.mem_nil_iff, or_false] at hL1 hL2
    rcases hL1 with rfl | rfl | rfl | rfl | rfl <;>
      rcases hL2 with rfl | rfl | rfl | rfl | rfl <;>
      first
        | (exfalso; revert h12; decide)
        | (simp only [h0, h1, h2, h3, h4]
           exact ⟨_, _, rfl, rfl, by omega⟩)
  · exact ⟨_, _, _, _, _, h0, h1, h2, h3, h4, by omega, by omega, by omega, by omega, by omega,
      by omega⟩

/-- Witness of C10 on the range `[1, 99]`. -/
theorem mapPrio_in_range_and_monotone_witness :
    (∀ L ∈ levels, ∃ v, mapPrio (rangePlatform 1 99) L 0 = some v ∧
      getMinOSPriorityImpl (rangePlatform 1 99) 0 ≤ v ∧
      v ≤ getMaxOSPriorityImpl (rangePlatform 1 99) 0) ∧
    (∀ L1 ∈ levels, ∀ L2 ∈ levels, L1 ≤ L2 →
      ∃ v1 v2, mapPrio (rangePlatform 1 99) L1 0 = some v1 ∧
        mapPrio (rangePlatform 1 99) L2 0 = some v2 ∧ v1 ≤ v2) ∧
    (∃ lowest low normal high highest,
      mapPrio (rangePlatform 1 99) PRIO_LOWEST_IMPL 0 = some lowest ∧
      mapPrio (rangePlatform 1 99) PRIO_LOW_IMPL 0 = some low ∧
      mapPrio (rangePlatform 1 99) PRIO_NORMAL_IMPL 0 = some normal ∧
      mapPrio (rangePlatform 1 99) PRIO_HIGH_IMPL 0 = some high ∧
      mapPrio (rangePlatform 1 99) PRIO_HIGHEST_IMPL 0 = some highest ∧
      getMinOSPriorityImpl (rangePlatform 1 99) 0 ≤ lowest ∧ lowest ≤ low ∧ low ≤ normal ∧
      normal ≤ high ∧ high ≤ highest ∧ highest ≤ getMaxOSPriorityImpl (rangePlatform 1 99) 0) :=
  mapPrio_in_range_and_monotone (rangePlatform 1 99) 0 (by decide) (by decide) (by decide)
    (by decide)

/-- C1, as stated, fails: on Linux the default policy has the range `[0, 0]`,
level Lowest maps to 0 and 0 maps back to Highest. -/
theorem roundtrip_fails_on_linux :
    mapPrio linuxPlatform PRIO_LOWEST_IMPL linuxPlatform.SCHED_OTHER = some 0 ∧
    reverseMapPrio linuxPlatform 0 linuxPlatform.SCHED_OTHER = PRIO_HIGHEST_IMPL ∧
    ¬ ((mapPrio linuxPlatform PRIO_LOWEST_IMPL linuxPlatform.SCHED_OTHER).map
        (fun v => reverseMapPrio linuxPlatform v linuxPlatform.SCHED_OTHER)
        = some PRIO_LOWEST_IMPL) := by
  decide

/-- C1, amended: when the default policy has a range of `int` values with
`pmin ≤ pmax` and `3 * (pmax - pmin)` not overflowing, mapping a level to its
native value and back returns the level, for all five levels, exactly when
`pmax - pmin ≥ 4`. -/
theorem roundtrip_iff_range_at_least_four (P : Platform)
    (hmin : isInt (getMinOSPriorityImpl P P.SCHED_OTHER))
    (hmax : isInt (getMaxOSPriorityImpl P P.SCHED_OTHER))
    (hle : getMinOSPriorityImpl P P.SCHED_OTHER ≤ getMaxOSPriorityImpl P P.SCHED_OTHER)
    (hov : 3 * (getMaxOSPriorityImpl P P.SCHED_OTHER - getMinOSPriorityImpl P P.SCHED_OTHER)
      ≤ 2147483647) :
    (∀ L ∈ levels, (mapPrio P L P.SCHED_OTHER).map
        (fun v => reverseMapPrio P v P.SCHED_OTHER) = some L) ↔
      4 ≤ getMaxOSPriorityImpl P P.SCHED_OTHER - getMinOSPriorityImpl P P.SCHED_OTHER := by
  obtain ⟨h0, h1, h2, h3, h4⟩ := mapPrio_values P P.SCHED_OTHER hmin hmax hle hov
  have hrev := fun v => reverseMapPrio_default P v hmin hmax hle (by omega)
  unfold isInt at hmin hmax
  constructor
  · intro h
    have hlow := h PRIO_LOW_IMPL (by simp [levels])
    rw [h1] at hlow
    simp only [Option.map_some', hrev, Option.some.injEq] at hlow
    simp only [PRIO_LOWEST_IMPL, PRIO_LOW_IMPL, PRIO_NORMAL_IMPL, PRIO_HIGH_IMPL,
      PRIO_HIGHEST_IMPL] at hlow
    split_ifs at hlow <;> omega
  · intro h L hL
    simp only [levels, List.mem_cons, List.mem_singleton, List.mem_nil_iff, or_false] at hL
    rcases hL with rfl | rfl | rfl | rfl | rfl
    · rw [h0]
      simp only [Option.map_some', hrev, Option.some.injEq]
      split_ifs <;> first | rfl | omega
    · rw [h1]
      simp only [Option.map_some', hrev, Option.some.injEq]
      split_ifs <;> first | rfl | omega
    · rw [h2]
      simp only [Option.map_some', hrev, Option.some.injEq]
      split_ifs <;> first | rfl | omega
    · rw [h3]
      simp only [Option.map_some', hrev, Option.some.injEq]
      split_ifs <;> first | rfl | omega
    · rw [h4]
      simp only [Option.map_some', hrev, Option.some.injEq]
      split_ifs <;> rfl

/-- Witness of the amended C1 on the range `[1, 99]`. -/
theorem roundtrip_iff_range_at_least_four_witness :
    ((∀ L ∈ levels, (mapPrio (rangePlatform 1 99) L (rangePlatform 1 99).SCHED_OTHER).map
        (fun v => reverseMapPrio (rangePlatform 1 99) v (rangePlatform 1 99).SCHED_OTHER)
          = some L) ↔
      4 ≤ getMaxOSPriorityImpl (rangePlatform 1 99) (rangePlatform 1 99).SCHED_OTHER
        - getMinOSPriorityImpl (rangePlatform 1 99) (rangePlatform 1 99).SCHED_OTHER) :=
  roundtrip_iff_range_at_least_four (rangePlatform 1 99) (by decide) (by decide) (by decide)
    (by decide)

/-! ## Theorems: start and join -/

/-- C2: on a handle whose `pRunnableTarget` is non-empty, `startImpl` raises
`SystemException("thread already running")`, makes no call, and leaves every
field of the handle as it was. -/
theorem startImpl_rejects_live_handle (P : Platform) (os : StartOs) (d : ThreadData)
    (pTarget : Option Nat) (h : d.pRunnableTarget ≠ none) :
    startImpl P os d pTarget =
      ⟨.threw (.SystemException "thread already running"), d, []⟩ := by
  have hs : d.pRunnableTarget.isSome = true := Option.isSome_iff_ne_none.mpr h
  simp [startImpl, hs]

/-- Witness of C2 on a running handle. -/
theorem startImpl_rejects_live_handle_witness :
    startImpl linuxPlatform allSucceed runningData (some 8) =
      ⟨.threw (.SystemException "thread already running"), runningData, []⟩ :=
  startImpl_rejects_live_handle linuxPlatform allSucceed runningData (some 8) (by decide)

/-- C3, as stated, fails: a handle that was started, completed and joined has
`started = true`, yet a further `startImpl` on it returns normally and calls
`pthread_create`. -/
theorem start_after_join_succeeds :
    joinedData.started = true ∧ joinedData.joined = true ∧
    (startImpl linuxPlatform allSucceed joinedData (some 8)).result = .ok () ∧
    Call.pthread_create (some 8) ∈ (startImpl linuxPlatform allSucceed joinedData (some 8)).calls := by
  decide

/-- C3, amended: on a handle with `started = true`, a further `startImpl`
raises `SystemException("thread already running")` exactly when the unit is
still running (`pRunnableTarget` non-empty), and it then makes no call, so
no thread is launched. -/
theorem startImpl_on_started_handle (P : Platform) (os : StartOs) (d : ThreadData)
    (pTarget : Option Nat) (hs : d.started = true) :
    ((startImpl P os d pTarget).result = .threw (.SystemException "thread already running")
      ↔ isRunningImpl d = true) ∧
    (isRunningImpl d = true → (startImpl P os d pTarget).calls = [] ∧
      (startImpl P os d pTarget).data.started = true) := by
  unfold isRunningImpl
  cases hr : d.pRunnableTarget.isSome
  · refine ⟨?_, by simp⟩
    simp only [startImpl, hr, Bool.false_eq_true, if_false, iff_false]
    split_ifs <;> try simp
    all_goals (split <;> try split_ifs) <;> simp
  · simp [startImpl, hr, hs]

/-- Witness of the amended C3 on a running handle. -/
theorem startImpl_on_started_handle_witness :
    ((startImpl linuxPlatform allSucceed runningData (some 8)).result
        = .threw (.SystemException "thread already running")
      ↔ isRunningImpl runningData = true) ∧
    (isRunningImpl runningData = true →
      (startImpl linuxPlatform allSucceed runningData (some 8)).calls = [] ∧
      (startImpl linuxPlatform allSucceed runningData (some 8)).data.started = true) :=
  startImpl_on_started_handle linuxPlatform allSucceed runningData (some 8) (by decide)

/-- C4: `joinImpl(long)` (a) on a handle never started returns true, waits
for nothing, reaps nothing and changes no field; (b) on a started handle
whose completion is signalled within the timeout it calls `pthread_join`,
and then sets `joined` and returns true if that returns 0, and raises
`SystemException("cannot join thread")` with the handle unchanged otherwise;
(c) on a started handle whose completion is not signalled in time it returns
false, does not call `pthread_join` and changes no field, and a later timed
join whose wait succeeds reaps the thread and returns true. -/
theorem joinImpl_milliseconds_cases (d : ThreadData) (milliseconds later rc : Int)
    (tryWait : Bool) :
    (d.started = false →
      joinImpl_milliseconds tryWait rc d milliseconds = ⟨.ok true, d, []⟩) ∧
    (d.started = true → tryWait = true → rc = 0 →
      joinImpl_milliseconds tryWait rc d milliseconds =
        ⟨.ok true, { d with joined := true },
          [.done_tryWait milliseconds, .pthread_join d.thread]⟩) ∧
    (d.started = true → tryWait = true → rc ≠ 0 →
      joinImpl_milliseconds tryWait rc d milliseconds =
        ⟨.threw (.SystemException "cannot join thread"), d,
          [.done_tryWait milliseconds, .pthread_join d.thread]⟩) ∧
    (d.started = true → tryWait = false →
      joinImpl_milliseconds tryWait rc d milliseconds =
        ⟨.ok false, d, [.done_tryWait milliseconds]⟩ ∧
      joinImpl_milliseconds true 0
          (joinImpl_milliseconds tryWait rc d milliseconds).data later =
        ⟨.ok true, { d with joined := true },
          [.done_tryWait later, .pthread_join d.thread]⟩) := by
  refine ⟨?_, ?_, ?_, ?_⟩
  · intro h
    simp [joinImpl_milliseconds, h]
  · intro h ht hrc
    simp [joinImpl_milliseconds, h, ht, hrc]
  · intro h ht hrc
    simp [joinImpl_milliseconds, h, ht, hrc]
  · intro h ht
    simp [joinImpl_milliseconds, h, ht]

/-- Witness of C4: a handle never started; a running handle joined with a
timeout of 50 ms that expires, then with 1000 ms; a reap that fails. -/
theorem joinImpl_milliseconds_cases_witness :
    joinImpl_milliseconds true 0 (newThreadData linuxPlatform) 50 =
      ⟨.ok true, newThreadData linuxPlatform, []⟩ ∧
    joinImpl_milliseconds true 0 runningData 1000 =
      ⟨.ok true, { runningData with joined := true },
        [.done_tryWait 1000, .pthread_join runningData.thread]⟩ ∧
    joinImpl_milliseconds true 3 runningData 1000 =
      ⟨.threw (.SystemException "cannot join thread"), runningData,
        [.done_tryWait 1000, .pthread_join runningData.thread]⟩ ∧
    (joinImpl_milliseconds false 0 runningData 50 =
        ⟨.ok false, runningData, [.done_tryWait 50]⟩ ∧
      joinImpl_milliseconds true 0 (joinImpl_milliseconds false 0 runningData 50).data 1000 =
        ⟨.ok true, { runningData with joined := true },
          [.done_tryWait 1000, .pthread_join runningData.thread]⟩) :=
  ⟨(joinImpl_milliseconds_cases (newThreadData linuxPlatform) 50 1000 0 true).1 (by decide),
   (joinImpl_milliseconds_cases runningData 1000 1000 0 true).2.1 (by decide) rfl rfl,
   (joinImpl_milliseconds_cases runningData 1000 1000 3 true).2.2.1 (by decide) rfl (by decide),
   (joinImpl_milliseconds_cases runningData 50 1000 0 false).2.2.2 (by decide) rfl⟩

/-! ## Theorems: priority setters -/

/-- The handle state `setPriorityImpl` leaves, whether it returns or raises:
unchanged when the level is the stored one, else with the new level and the
default policy. -/
theorem setPriorityImpl_data (P : Platform) (rc : Int) (d : ThreadData) (prio : Int) :
    (setPriorityImpl P rc d prio).data =
      if prio ≠ d.prio then { d with prio := prio, policy := P.SCHED_OTHER } else d := by
  unfold setPriorityImpl
  by_cases h1 : prio = d.prio
  · simp [h1]
  · simp only [ne_eq, h1, not_false_eq_true, if_true]
    cases isRunningImpl { d with prio := prio, policy := P.SCHED_OTHER } <;>
      cases mapPrio P prio P.SCHED_OTHER <;> by_cases h2 : rc = 0 <;> simp [h2]

/-- C6, as stated, fails, with the default range `[0, 8]`. A handle at level
High with native priority 5 is in sync; `setPriorityImpl` with level High
finds the level unchanged and returns having done nothing, so `osPrio` is 5
and not 6, the native value of High. And a handle at normal priority with
native priority 4 is in sync; after `setPriorityImpl` with level Highest
returns, `osPrio` is still 4, whose level is Normal. -/
theorem setPriorityImpl_leaves_osPrio :
    (inSync (rangePlatform 0 8) syncedHighData ∧
      syncedHighData.prio = PRIO_HIGH_IMPL ∧
      setPriorityImpl (rangePlatform 0 8) 0 syncedHighData PRIO_HIGH_IMPL =
        ⟨.ok (), syncedHighData, []⟩ ∧
      syncedHighData.osPrio = 5 ∧
      mapPrio (rangePlatform 0 8) PRIO_HIGH_IMPL (rangePlatform 0 8).SCHED_OTHER = some 6) ∧
    (inSync (rangePlatform 0 8) syncedData ∧
      (setPriorityImpl (rangePlatform 0 8) 0 syncedData PRIO_HIGHEST_IMPL).result = .ok () ∧
      (setPriorityImpl (rangePlatform 0 8) 0 syncedData PRIO_HIGHEST_IMPL).data.prio
        = PRIO_HIGHEST_IMPL ∧
      (setPriorityImpl (rangePlatform 0 8) 0 syncedData PRIO_HIGHEST_IMPL).data.osPrio = 4 ∧
      mapPrio (rangePlatform 0 8) PRIO_HIGHEST_IMPL (rangePlatform 0 8).SCHED_OTHER = some 8 ∧
      ¬ inSync (rangePlatform 0 8)
        (setPriorityImpl (rangePlatform 0 8) 0 syncedData PRIO_HIGHEST_IMPL).data) := by
  decide

/-- C6, amended: from a handle in sync under the default policy,
`setOSPriorityImpl(v, SCHED_OTHER)` that returns without error leaves the
handle in sync, with `osPrio = v` when it changed anything; `setPriorityImpl(L)`
that returns without error leaves the policy `SCHED_OTHER` and `prio = L`. -/
theorem priority_setters_under_default_policy (P : Platform) (d : ThreadData) (rc L v : Int)
    (h : inSync P d) :
    ((setOSPriorityImpl P rc d v P.SCHED_OTHER).result = .ok () →
      inSync P (setOSPriorityImpl P rc d v P.SCHED_OTHER).data ∧
      (setOSPriorityImpl P rc d v P.SCHED_OTHER).data.osPrio = v) ∧
    ((setPriorityImpl P rc d L).result = .ok () →
      (setPriorityImpl P rc d L).data.policy = P.SCHED_OTHER ∧
      (setPriorityImpl P rc d L).data.prio = L) := by
  obtain ⟨hp, hq⟩ := h
  constructor
  · intro hok
    unfold setOSPriorityImpl at hok ⊢
    unfold inSync
    split_ifs at hok ⊢ <;> simp_all
  · intro _
    rw [setPriorityImpl_data]
    split_ifs <;> simp_all

/-- Witness of the amended C6 on the range `[0, 8]`. -/
theorem priority_setters_under_default_policy_witness :
    ((setOSPriorityImpl (rangePlatform 0 8) 0 syncedData 6 (rangePlatform 0 8).SCHED_OTHER).result
        = .ok () →
      inSync (rangePlatform 0 8)
        (setOSPriorityImpl (rangePlatform 0 8) 0 syncedData 6
          (rangePlatform 0 8).SCHED_OTHER).data ∧
      (setOSPriorityImpl (rangePlatform 0 8) 0 syncedData 6
        (rangePlatform 0 8).SCHED_OTHER).data.osPrio = 6) ∧
    ((setPriorityImpl (rangePlatform 0 8) 0 syncedData PRIO_HIGHEST_IMPL).result = .ok () →
      (setPriorityImpl (rangePlatform 0 8) 0 syncedData PRIO_HIGHEST_IMPL).data.policy
        = (rangePlatform 0 8).SCHED_OTHER ∧
      (setPriorityImpl (rangePlatform 0 8) 0 syncedData PRIO_HIGHEST_IMPL).data.prio
        = PRIO_HIGHEST_IMPL) :=
  priority_setters_under_default_policy (rangePlatform 0 8) syncedData 0 PRIO_HIGHEST_IMPL 6
    (by decide)

/-! ## Theorems: lifecycle flags -/

/-- The flags after `startImpl`: `joined` is untouched and `started` is never
cleared. -/
theorem startImpl_flags (P : Platform) (os : StartOs) (d : ThreadData) (pTarget : Option Nat) :
    (startImpl P os d pTarget).data.joined = d.joined ∧
    (d.started = true → (startImpl P os d pTarget).data.started = true) := by
  unfold startImpl
  by_cases h1 : d.pRunnableTarget.isSome = true
  · simp [h1]
  by_cases h2 : d.stackSize = 0 <;> by_cases h2b : os.pthread_attr_setstacksize = 0 <;>
    by_cases h3 : os.pthread_create = 0 <;>
    by_cases h4 : d.policy = P.SCHED_OTHER <;> by_cases h5 : d.prio = PRIO_NORMAL_IMPL <;>
    by_cases h6 : os.pthread_setschedparam = 0 <;>
    cases hm : mapPrio P d.prio P.SCHED_OTHER <;> simp [h1, h2, h2b, h3, h4, h5, h6, hm]

/-- The flags after `setOSPriorityImpl` are those before. -/
theorem setOSPriorityImpl_flags (P : Platform) (rc : Int) (d : ThreadData) (prio policy : Int) :
    (setOSPriorityImpl P rc d prio policy).data.joined = d.joined ∧
    (setOSPriorityImpl P rc d prio policy).data.started = d.started := by
  unfold setOSPriorityImpl
  split_ifs <;> simp

/-- The flags after `setStackSizeImpl` are those before. -/
theorem setStackSizeImpl_flags (P : Platform) (d : ThreadData) (size : Int) :
    (setStackSizeImpl P d size).joined = d.joined ∧
    (setStackSizeImpl P d size).started = d.started := by
  unfold setStackSizeImpl
  split
  · simp
  · split_ifs <;> simp

/-- One operation never clears `started` or `joined`, and keeps
`joined → started`. -/
theorem step_flags (P : Platform) (d : ThreadData) (op : Op) :
    (d.started = true → (step P d op).started = true) ∧
    (d.joined = true → (step P d op).joined = true) ∧
    ((d.joined = true → d.started = true) →
      (step P d op).joined = true → (step P d op).started = true) := by
  cases op with
  | start os pTarget =>
    obtain ⟨hj, hs⟩ := startImpl_flags P os d pTarget
    simp only [step, hj]
    exact ⟨hs, id, fun h hjd => hs (h hjd)⟩
  | join rc =>
    simp only [step, joinImpl]
    cases hs : d.started <;> cases hj : d.joined <;> by_cases hrc : rc = 0 <;>
      simp [hrc, hs, hj]
  | joinTimed tryWait rc ms =>
    simp only [step, joinImpl_milliseconds]
    cases hs : d.started <;> cases hj : d.joined <;> cases tryWait <;>
      by_cases hrc : rc = 0 <;> simp [hrc, hs, hj]
  | setPriority rc prio =>
    simp only [step, setPriorityImpl_data]
    split_ifs <;> simp
  | setOSPriority rc prio policy =>
    obtain ⟨hj, hs⟩ := setOSPriorityImpl_flags P rc d prio policy
    simp only [step, hj, hs]
    exact ⟨id, id, id⟩
  | setStackSize size =>
    obtain ⟨hj, hs⟩ := setStackSizeImpl_flags P d size
    simp only [step, hj, hs]
    exact ⟨id, id, id⟩
  | completion gettid =>
    simp only [step, runnableEntry]
    split_ifs <;> simp

/-- C7: in every state reached from a fresh handle by any sequence of start
(returning or raising), join, timed join, setPriority, setOSPriority,
setStackSize and completion of the running unit, `joined` implies `started`;
and no operation, in any state, clears `started` or `joined`. -/
theorem lifecycle_flags_invariant (P : Platform) (d0 : ThreadData) (hfresh : isFresh d0) :
    (∀ ops : List Op, (run P d0 ops).joined = true → (run P d0 ops).started = true) ∧
    (∀ (d : ThreadData) (op : Op), d.started = true → (step P d op).started = true) ∧
    (∀ (d : ThreadData) (op : Op), d.joined = true → (step P d op).joined = true) := by
  refine ⟨?_, fun d op => (step_flags P d op).1, fun d op => (step_flags P d op).2.1⟩
  have key : ∀ (ops : List Op) (d : ThreadData), (d.joined = true → d.started = true) →
      (run P d ops).joined = true → (run P d ops).started = true := by
    intro ops
    induction ops with
    | nil => intro d h; simpa [run] using h
    | cons op rest ih =>
      intro d h
      have := ih (step P d op) ((step_flags P d op).2.2 h)
      simpa [run] using this
  intro ops
  apply key
  intro hj
  rw [hfresh.2.1] at hj
  cases hj

/-- Witness of C7 on the handle a Linux build constructs. -/
theorem lifecycle_flags_invariant_witness :
    (∀ ops : List Op, (run linuxPlatform (newThreadData linuxPlatform) ops).joined = true →
      (run linuxPlatform (newThreadData linuxPlatform) ops).started = true) ∧
    (∀ (d : ThreadData) (op : Op), d.started = true →
      (step linuxPlatform d op).started = true) ∧
    (∀ (d : ThreadData) (op : Op), d.joined = true →
      (step linuxPlatform d op).joined = true) :=
  lifecycle_flags_invariant linuxPlatform (newThreadData linuxPlatform) (by decide)

/-! ## Theorems: affinity -/

/-- C8, as stated, fails: on a build with no affinity call compiled in,
`setAffinityImpl(0)` returns normally, having only yielded. -/
theorem setAffinityImpl_returns_without_support :
    hasAffinityCall noAffinityPlatform = false ∧
    setAffinityImpl noAffinityPlatform 0 (newThreadData noAffinityPlatform) 0 =
      ⟨.ok (), newThreadData noAffinityPlatform, [.yieldImpl]⟩ := by
  decide

/-- C8, amended: on a build with no affinity call compiled in,
`setAffinityImpl` makes no affinity call, yields and returns normally for
every cpu index, leaving the handle as it was; on every build it raises
`SystemException("Failed to set affinity")` exactly when an affinity call is
compiled in and that call fails. -/
theorem setAffinityImpl_without_support (P : Platform) (rc : Int) (d : ThreadData) (cpu : Int) :
    (hasAffinityCall P = false →
      setAffinityImpl P rc d cpu = ⟨.ok (), d, [.yieldImpl]⟩) ∧
    ((setAffinityImpl P rc d cpu).result = .threw (.SystemException "Failed to set affinity")
      ↔ (hasAffinityCall P = true ∧ rc ≠ 0)) := by
  unfold hasAffinityCall setAffinityImpl
  cases P.POCO_OS <;> cases P.POCO_OS_FAMILY_UNIX <;> cases P.HAVE_PTHREAD_SETAFFINITY_NP <;>
    by_cases hrc : rc = 0 <;> simp [hrc]

/-- Witness of the amended C8 on a Unix build without
`HAVE_PTHREAD_SETAFFINITY_NP`. -/
theorem setAffinityImpl_without_support_witness :
    setAffinityImpl noAffinityPlatform 5 (newThreadData noAffinityPlatform) 3 =
      ⟨.ok (), newThreadData noAffinityPlatform, [.yieldImpl]⟩ :=
  (setAffinityImpl_without_support noAffinityPlatform 5 (newThreadData noAffinityPlatform) 3).1
    (by decide)

/-! ## Theorems: stack size -/

/-- Truncating division by 4096 in terms of flooring division. -/
theorem tdiv_4096 (x : Int) :
    x.tdiv 4096 = if 0 ≤ x then x / 4096 else -((-x) / 4096) := by
  split_ifs with h
  · exact Int.tdiv_eq_ediv h (by decide)
  · have h1 : (-x).tdiv 4096 = (-x) / 4096 := Int.tdiv_eq_ediv (by omega) (by decide)
    have h2 := Int.neg_tdiv (-x) 4096
    rw [neg_neg] at h2
    rw [h2, h1]

/-- C9, as stated, fails: on Android, where `PTHREAD_STACK_MIN` is 8192, the
minimum is not applied and `setStackSizeImpl(1)` stores 1. -/
theorem setStackSizeImpl_android_below_minimum :
    androidPlatform.PTHREAD_STACK_MIN = some 8192 ∧
    (setStackSizeImpl androidPlatform (newThreadData androidPlatform) 1).stackSize = 1 := by
  decide

/-- C9, amended: on a build that defines `PTHREAD_STACK_MIN`,
`setStackSizeImpl(0)` stores 0; for a non-zero `int` size (with `size + 4096`
not overflowing on a BSD-family build) the stored size is at least the size
asked for, on every build but Android it is at least `PTHREAD_STACK_MIN`,
and on a BSD-family build it is a multiple of 4096 unless it is
`PTHREAD_STACK_MIN` itself, to which it was raised. -/
theorem setStackSizeImpl_normalises (P : Platform) (d : ThreadData) (size stackMin : Int)
    (hmin : P.PTHREAD_STACK_MIN = some stackMin) (hsz : isInt size)
    (hov : P.POCO_OS_FAMILY_BSD = true → size + 4096 ≤ 2147483647) :
    (setStackSizeImpl P d 0).stackSize = 0 ∧
    (size ≠ 0 →
      size ≤ (setStackSizeImpl P d size).stackSize ∧
      (P.POCO_ANDROID = false → stackMin ≤ (setStackSizeImpl P d size).stackSize) ∧
      (P.POCO_OS_FAMILY_BSD = true →
        (4096 ∣ (setStackSizeImpl P d size).stackSize ∨
          (P.POCO_ANDROID = false ∧ (setStackSizeImpl P d size).stackSize = stackMin)))) := by
  unfold isInt at hsz
  constructor
  · simp [setStackSizeImpl, hmin]
  · intro hne
    simp only [setStackSizeImpl, hmin, ne_eq, hne, not_false_eq_true, if_true]
    cases hb : P.POCO_OS_FAMILY_BSD
    · cases ha : P.POCO_ANDROID
      · simp only [Bool.false_eq_true, if_false, Bool.not_false, if_true, false_implies,
          and_true, true_implies]
        split_ifs <;> omega
      · simp
    · have hov2 := hov hb
      have e1 : wrapInt (size + 4096) = size + 4096 :=
        wrapInt_of_isInt _ (by unfold isInt; omega)
      have e2 : wrapInt (size + 4096 - 1) = size + 4096 - 1 :=
        wrapInt_of_isInt _ (by unfold isInt; omega)
      have e3 : wrapInt ((size + 4096 - 1).tdiv 4096 * 4096) = (size + 4096 - 1).tdiv 4096 * 4096 := by
        apply wrapInt_of_isInt
        unfold isInt
        rw [tdiv_4096]
        split_ifs <;> omega
      simp only [e1, e2, e3, if_true]
      rw [tdiv_4096]
      cases ha : P.POCO_ANDROID
      · simp only [Bool.not_false, if_true, true_implies, true_and]
        split_ifs <;> omega
      · simp only [Bool.not_true, Bool.false_eq_true, if_false]
        refine ⟨?_, fun h => Bool.noConfusion h, fun _ => Or.inl (Dvd.intro_left _ rfl)⟩
        split_ifs <;> omega

/-- Witness of the amended C9 on Mac OS X, a BSD-family build, with size
5000. -/
theorem setStackSizeImpl_normalises_witness :
    (setStackSizeImpl macPlatform (newThreadData macPlatform) 0).stackSize = 0 ∧
    ((5000 : Int) ≠ 0 →
      5000 ≤ (setStackSizeImpl macPlatform (newThreadData macPlatform) 5000).stackSize ∧
      (macPlatform.POCO_ANDROID = false →
        8192 ≤ (setStackSizeImpl macPlatform (newThreadData macPlatform) 5000).stackSize) ∧
      (macPlatform.POCO_OS_FAMILY_BSD = true →
        (4096 ∣ (setStackSizeImpl macPlatform (newThreadData macPlatform) 5000).stackSize ∨
          (macPlatform.POCO_ANDROID = false ∧
            (setStackSizeImpl macPlatform (newThreadData macPlatform) 5000).stackSize = 8192)))) :=
  setStackSizeImpl_normalises macPlatform (newThreadData macPlatform) 5000 8192 rfl (by decide)
    (by decide)

/-! ## Theorems: sleep -/

end Poco
